import Mathlib

/-!
Verification of `python_modules/dagster-test/dagster_test/toys/freshness_checks.py`.

The file under study declares a toy pipeline: an observable source asset whose
"last updated" timestamp is produced by a coin-flip simulator
(`get_last_updated_timestamp_unreliable_source`), a dependent asset
(`derived_asset`) that fails when that timestamp is stale, two freshness-check
constructions, two schedules and one sensor.

Modelling conventions:
* A `pendulum` datetime is represented by its POSIX timestamp in whole seconds
  (`DateTime.ts : Int`).  The `minute` field, `subtract(minutes=k)` and
  `replace(minute=m)` are expressed in terms of that timestamp.  Python's floor
  division `//` and modulo `%` by a positive constant agree with Lean's
  `Int.ediv` / `Int.emod`, so `/` and `%` on `Int` are used throughout.
* Python exceptions are modelled by `Except PyError`: `pendulum`'s
  `replace(minute=m)` raises `ValueError` for `m` outside `0..59`,
  list indexing out of range raises `IndexError`, `check.not_none` raises on
  `None`, and a bare `raise Exception(msg)` is `PyError.raised msg`.
* `random.random()` is modelled by a rational draw parameter, compared with 1/2.
-/

inductive PyError where
  | valueError
  | indexError
  | checkError
  | raised (msg : String)
deriving DecidableEq, Repr

/-- A `pendulum` datetime, reduced to the data the file manipulates: its POSIX
timestamp in whole seconds. -/
structure DateTime where
  ts : Int
deriving DecidableEq, Repr

/-- The `minute` field of a datetime (`0..59`). -/
def DateTime.minute (d : DateTime) : Int := d.ts / 60 % 60

/-- `pendulum`'s `subtract(minutes=k)`. -/
def DateTime.subtractMinutes (d : DateTime) (k : Int) : DateTime := ⟨d.ts - 60 * k⟩

/-- `pendulum`'s `.timestamp()`. -/
def DateTime.timestamp (d : DateTime) : Int := d.ts

/-- `pendulum`'s `replace(minute=m)`: sets the minute field, raising
`ValueError` when `m` is outside `0..59`. -/
def DateTime.replaceMinute (d : DateTime) (m : Int) : Except PyError DateTime :=
  if 0 ≤ m ∧ m ≤ 59 then .ok ⟨d.ts - 60 * d.minute + 60 * m⟩ else .error .valueError

/-- A `TimestampMetadataValue`: its `.value` is the float POSIX timestamp
(whole seconds in this model). -/
structure TimestampMetadataValue where
  value : Int
deriving DecidableEq, Repr

/-- `MetadataValue.timestamp(dt)` wraps a datetime's timestamp. -/
def MetadataValue.timestamp (d : DateTime) : TimestampMetadataValue := ⟨d.ts⟩

/-- The part of an `AssetObservation` the file reads: its
`metadata["dagster/last_updated_timestamp"]` entry. -/
structure AssetObservation where
  lastUpdatedTimestamp : TimestampMetadataValue
deriving DecidableEq, Repr

/-- An event-log record as returned by `fetch_observations`; its
`asset_observation` field is `Optional` (hence `check.not_none` in the code). -/
structure ObservationRecord where
  assetObservation : Option AssetObservation
deriving DecidableEq, Repr

/-- Modelled from the spec: the execution context's `instance.fetch_observations`
is framework code not present in this excerpt.  Per the spec it exposes "fetch
of prior observation records by asset key and limit"; it returns at most
`limit` of the prior records, newest first (`history` is the full prior
observation history, newest first). -/
def fetch_observations (history : List ObservationRecord) (limit : Nat) :
    List ObservationRecord :=
  history.take limit

/-- The `else` branch of `get_last_updated_timestamp_unreliable_source`
(lines 91-93): `rounded_minute = math.floor((now.minute - 1) / 3) * 3`,
then `MetadataValue.timestamp(now.replace(minute=rounded_minute))`. -/
def fallbackBranch (now : DateTime) : Except PyError TimestampMetadataValue :=
  (now.replaceMinute ((now.minute - 1) / 3 * 3)).map MetadataValue.timestamp

/-- The body of `get_last_updated_timestamp_unreliable_source` after the fetch
(lines 86-93), with the fetched record list as a parameter: if the random draw
is below 0.5 and more than one record was fetched, return the first record's
stored timestamp metadata unchanged; otherwise compute the synthetic rounded
timestamp. -/
def simulatorStep (draw : ℚ) (records : List ObservationRecord) (now : DateTime) :
    Except PyError TimestampMetadataValue :=
  if draw < 1/2 ∧ records.length > 1 then
    match records with
    | [] => .error .indexError
    | r :: _ =>
      match r.assetObservation with
      | none => .error .checkError
      | some obs => .ok obs.lastUpdatedTimestamp
  else
    fallbackBranch now

/-- `get_last_updated_timestamp_unreliable_source` (lines 80-93): fetch the
prior observations with `limit=1`, then run the branch logic.  `draw` is the
`random.random()` result, `history` the prior observation history (newest
first), `now` the ambient current time. -/
def get_last_updated_timestamp_unreliable_source (draw : ℚ)
    (history : List ObservationRecord) (now : DateTime) :
    Except PyError TimestampMetadataValue :=
  simulatorStep draw (fetch_observations history 1) now

/-- The branch-free function of claim C4: always returns the synthetic rounded
timestamp, never consulting the draw or the history. -/
def alwaysRoundedTimestamp (_draw : ℚ) (_history : List ObservationRecord)
    (now : DateTime) : Except PyError TimestampMetadataValue :=
  fallbackBranch now

/-- The fallback output as the spec's words describe it: "take the current
time, subtract one minute, floor-divide the minute component of that earlier
time by 3, multiply by 3, and set the current time's minute field to that
value". -/
def specRoundedTimestamp (now : DateTime) : Except PyError TimestampMetadataValue :=
  (now.replaceMinute ((now.subtractMinutes 1).minute / 3 * 3)).map MetadataValue.timestamp

/-- The body of `derived_asset` (lines 33-49): fetch the latest observation of
the unreliable source with `limit=1`, index the first record (`IndexError` when
none), read its timestamp metadata value (`check.not_none` on the observation),
and raise when it is older than three minutes before now; otherwise return 1. -/
def derived_asset (history : List ObservationRecord) (now : DateTime) :
    Except PyError Nat :=
  match fetch_observations history 1 with
  | [] => .error .indexError
  | r :: _ =>
    match r.assetObservation with
    | none => .error .checkError
    | some obs =>
      if obs.lastUpdatedTimestamp.value < (now.subtractMinutes 3).timestamp then
        .error (.raised "source is stale, so I am going to fail :(")
      else
        .ok 1

/-- An asset declaration, identified by its name. -/
structure AssetDef where
  name : String
deriving DecidableEq, Repr, BEq

/-- The `unreliable_source_events` observable source asset (line 21). -/
def unreliable_source_events : AssetDef := ⟨"unreliable_source_events"⟩

/-- The `derived_asset` asset declaration (line 32); its compute body is the
function `derived_asset` above. -/
def derived_asset_def : AssetDef := ⟨"derived_asset"⟩

/-- The configuration captured by `build_last_update_freshness_checks`: the
asset list, the deadline cron expression and the lower-bound delta
(`timedelta(minutes=n)` recorded as `n`). -/
structure FreshnessCheckConfig where
  assets : List AssetDef
  deadline_cron : String
  lower_bound_delta_minutes : Nat
deriving DecidableEq, Repr, BEq

/-- `build_last_update_freshness_checks` packages its arguments. -/
def build_last_update_freshness_checks (assets : List AssetDef)
    (deadline_cron : String) (lower_bound_delta_minutes : Nat) :
    FreshnessCheckConfig :=
  ⟨assets, deadline_cron, lower_bound_delta_minutes⟩

/-- `freshness_checks_unreliable_source` (lines 52-56). -/
def freshness_checks_unreliable_source : FreshnessCheckConfig :=
  build_last_update_freshness_checks [unreliable_source_events] "*/4 * * * *" 3

/-- `freshness_checks_derived_asset` (lines 58-62). -/
def freshness_checks_derived_asset : FreshnessCheckConfig :=
  build_last_update_freshness_checks [derived_asset_def] "*/4 * * * *" 3

/-- The configuration captured by `build_sensor_for_freshness_checks`. -/
structure SensorConfig where
  freshness_checks : FreshnessCheckConfig
  minimum_interval_seconds : Nat
deriving DecidableEq, Repr, BEq

/-- `build_sensor_for_freshness_checks` packages its arguments. -/
def build_sensor_for_freshness_checks (freshness_checks : FreshnessCheckConfig)
    (minimum_interval_seconds : Nat) : SensorConfig :=
  ⟨freshness_checks, minimum_interval_seconds⟩

/-- `freshness_sensor` (lines 74-77). -/
def freshness_sensor : SensorConfig :=
  build_sensor_for_freshness_checks freshness_checks_derived_asset 5

/-- Every sensor defined by the module: `freshness_sensor` is the only one. -/
def module_sensors : List SensorConfig := [freshness_sensor]

/-- C1: the claim says the simulator completes for every current time with a
valid synthetic minute.  The code contradicts this: when the current minute is
0 it computes `rounded_minute = floor((0 - 1) / 3) * 3 = -3`, and
`now.replace(minute=-3)` raises `ValueError`.  This theorem evaluates the
simulator at such a time (`ts = 0`, i.e. minute 0) and shows the raised error
and the invalid minute. -/
theorem C1_minute_zero_raises :
    get_last_updated_timestamp_unreliable_source 1 [] ⟨0⟩ = .error .valueError ∧
    ((⟨0⟩ : DateTime).minute - 1) / 3 * 3 = -3 := by
  refine ⟨?_, rfl⟩
  norm_num [get_last_updated_timestamp_unreliable_source, simulatorStep,
    fetch_observations, fallbackBranch, DateTime.replaceMinute, DateTime.minute,
    Except.map]

/-- C2 counterexample: at a current time with minute field 0 the fallback
branch raises `ValueError` instead of returning the value the spec's formula
describes (which would set the minute to 57). -/
theorem C2_counterexample :
    fallbackBranch ⟨0⟩ = .error .valueError ∧
    specRoundedTimestamp ⟨0⟩ = .ok ⟨3420⟩ :=
  ⟨rfl, rfl⟩

/-- C2 (amended): for every current time whose minute field is at least 1, the
fallback branch returns the current time with its minute field set to the
result of taking the current time, subtracting one minute, floor-dividing the
minute component of that earlier time by 3, and multiplying by 3. -/
theorem C2_fallback_matches_spec (now : DateTime) (h : 1 ≤ now.minute) :
    fallbackBranch now = specRoundedTimestamp now := by
  have hmin : (now.subtractMinutes 1).minute = now.minute - 1 := by
    simp only [DateTime.subtractMinutes, DateTime.minute] at *
    omega
  unfold fallbackBranch specRoundedTimestamp
  rw [hmin]

/-- C2 witness: the amended statement instantiated at `ts = 60` (minute 1). -/
theorem C2_witness :
    1 ≤ DateTime.minute ⟨60⟩ ∧ fallbackBranch ⟨60⟩ = specRoundedTimestamp ⟨60⟩ :=
  ⟨by decide, C2_fallback_matches_spec ⟨60⟩ (by decide)⟩

/-- C3: whenever the random draw is below 0.5 and the fetched record list has
more than one record, the simulator body returns the first (most recent)
record's stored timestamp metadata value unchanged. -/
theorem C3_stale_branch_returns_prior (draw : ℚ) (r : ObservationRecord)
    (rs : List ObservationRecord) (now : DateTime) (obs : AssetObservation)
    (hdraw : draw < 1/2) (hlen : (r :: rs).length > 1)
    (hobs : r.assetObservation = some obs) :
    simulatorStep draw (r :: rs) now = .ok obs.lastUpdatedTimestamp := by
  unfold simulatorStep
  rw [if_pos ⟨hdraw, hlen⟩]
  simp [hobs]

/-- C3 witness: a draw of 1/4 with a two-record fetched list returns the first
record's stored value 42 unchanged. -/
theorem C3_witness :
    (1/4 : ℚ) < 1/2 ∧
    ([⟨some ⟨⟨42⟩⟩⟩, ⟨none⟩] : List ObservationRecord).length > 1 ∧
    simulatorStep (1/4) [⟨some ⟨⟨42⟩⟩⟩, ⟨none⟩] ⟨0⟩ = .ok ⟨42⟩ :=
  ⟨by norm_num, by decide,
    C3_stale_branch_returns_prior (1/4) ⟨some ⟨⟨42⟩⟩⟩ [⟨none⟩] ⟨0⟩ ⟨⟨42⟩⟩
      (by norm_num) (by decide) rfl⟩

/-- C4: because the fetch uses `limit=1`, the fetched list never has more than
one element, the stale branch is dead, and the whole simulator is extensionally
equal to the branch-free function that always returns the synthetic rounded
timestamp. -/
theorem C4_limit_one_makes_stale_branch_dead (draw : ℚ)
    (history : List ObservationRecord) (now : DateTime) :
    get_last_updated_timestamp_unreliable_source draw history now =
      alwaysRoundedTimestamp draw history now := by
  unfold get_last_updated_timestamp_unreliable_source simulatorStep
    alwaysRoundedTimestamp fetch_observations
  rw [if_neg]
  rintro ⟨-, hlen⟩
  have h := List.length_take 1 history
  omega

/-- C5: `derived_asset` raises the exception with message
"source is stale, so I am going to fail :(" if and only if the latest observed
timestamp is strictly less than the current time minus 3 minutes (180 seconds),
and returns 1 if and only if it is not. -/
theorem C5_raises_iff_stale (obs : AssetObservation)
    (rs : List ObservationRecord) (now : DateTime) :
    (derived_asset (⟨some obs⟩ :: rs) now =
        .error (.raised "source is stale, so I am going to fail :(") ↔
      obs.lastUpdatedTimestamp.value < now.timestamp - 180) ∧
    (derived_asset (⟨some obs⟩ :: rs) now = .ok 1 ↔
      ¬ obs.lastUpdatedTimestamp.value < now.timestamp - 180) := by
  unfold derived_asset fetch_observations DateTime.subtractMinutes DateTime.timestamp
  simp only [List.take_succ_cons, List.take_zero]
  by_cases hc : obs.lastUpdatedTimestamp.value < now.ts - 180
  · rw [if_pos (by omega)]
    simp [hc]
  · rw [if_neg (by omega)]
    simp [hc]

/-- C6: for every current time whose minute field is at least 1, the fallback
branch succeeds and the minute field of the produced timestamp is a
non-negative multiple of 3, at most 3 less than and strictly less than the
current minute. -/
theorem C6_rounded_minute_ticks (now : DateTime) (h : 1 ≤ now.minute) :
    ∃ v, fallbackBranch now = .ok v ∧
      DateTime.minute ⟨v.value⟩ % 3 = 0 ∧ 0 ≤ DateTime.minute ⟨v.value⟩ ∧
      now.minute - 3 ≤ DateTime.minute ⟨v.value⟩ ∧
      DateTime.minute ⟨v.value⟩ < now.minute := by
  unfold fallbackBranch DateTime.replaceMinute
  rw [if_pos ?hb]
  case hb => simp only [DateTime.minute] at *; constructor <;> omega
  refine ⟨_, rfl, ?_, ?_, ?_, ?_⟩ <;>
    (simp only [MetadataValue.timestamp, DateTime.minute] at *; omega)

/-- C6 witness: the bounds instantiated at `ts = 60` (minute 1). -/
theorem C6_witness :
    1 ≤ DateTime.minute ⟨60⟩ ∧
    ∃ v, fallbackBranch ⟨60⟩ = .ok v ∧
      DateTime.minute ⟨v.value⟩ % 3 = 0 ∧ 0 ≤ DateTime.minute ⟨v.value⟩ ∧
      DateTime.minute (⟨60⟩ : DateTime) - 3 ≤ DateTime.minute ⟨v.value⟩ ∧
      DateTime.minute ⟨v.value⟩ < DateTime.minute (⟨60⟩ : DateTime) :=
  ⟨by decide, C6_rounded_minute_ticks ⟨60⟩ (by decide)⟩

/-- C7: `derived_asset` indexes the first fetched record without a guard: with
an empty history the index access fails with `IndexError`, and completing
(returning 1 or raising the intentional staleness error) requires at least one
prior observation. -/
theorem C7_empty_history_index_fails (history : List ObservationRecord)
    (now : DateTime) :
    (history = [] → derived_asset history now = .error .indexError) ∧
    ((derived_asset history now = .ok 1 ∨
        derived_asset history now =
          .error (.raised "source is stale, so I am going to fail :(")) →
      history ≠ []) := by
  cases history with
  | nil =>
    refine ⟨fun _ => rfl, fun h => ?_⟩
    rcases h with h | h <;> simp [derived_asset, fetch_observations] at h
  | cons r rs =>
    exact ⟨fun h => absurd h (List.cons_ne_nil r rs),
      fun _ => List.cons_ne_nil r rs⟩

/-- C7 witness: with an empty history the function fails with `IndexError`. -/
theorem C7_witness : derived_asset [] ⟨0⟩ = .error .indexError :=
  (C7_empty_history_index_fails [] ⟨0⟩).1 rfl

/-- C8: the simulator is deterministic in its stated inputs: equal ambient
current times, equal prior observation histories and equal random draws give
equal results. -/
theorem C8_deterministic (draw₁ draw₂ : ℚ) (h₁ h₂ : List ObservationRecord)
    (now₁ now₂ : DateTime) (hd : draw₁ = draw₂) (hh : h₁ = h₂)
    (hn : now₁ = now₂) :
    get_last_updated_timestamp_unreliable_source draw₁ h₁ now₁ =
      get_last_updated_timestamp_unreliable_source draw₂ h₂ now₂ := by
  subst hd; subst hh; subst hn; rfl

/-- C8 witness: determinism instantiated at a concrete draw, history, time. -/
theorem C8_witness :
    get_last_updated_timestamp_unreliable_source 1 [] ⟨0⟩ =
      get_last_updated_timestamp_unreliable_source 1 [] ⟨0⟩ :=
  C8_deterministic 1 1 [] [] ⟨0⟩ ⟨0⟩ rfl rfl rfl

/-- C9: the module's only sensor is built from the derived asset's freshness
checks with a minimum polling interval of 5 seconds, and the unreliable
source's freshness checks appear in no sensor of the module. -/
theorem C9_sensor_wiring :
    freshness_sensor.freshness_checks = freshness_checks_derived_asset ∧
    freshness_sensor.minimum_interval_seconds = 5 ∧
    (module_sensors.map SensorConfig.freshness_checks).contains
        freshness_checks_unreliable_source = false ∧
    module_sensors = [freshness_sensor] :=
  ⟨rfl, rfl, by decide, rfl⟩

/-- C10: both freshness-check constructions carry a one-element asset list
(`unreliable_source_events` and `derived_asset` respectively), the deadline
cron expression "*/4 * * * *", and a lower-bound delta of 3 minutes. -/
theorem C10_check_configs :
    freshness_checks_unreliable_source.assets = [unreliable_source_events] ∧
    freshness_checks_derived_asset.assets = [derived_asset_def] ∧
    freshness_checks_unreliable_source.deadline_cron = "*/4 * * * *" ∧
    freshness_checks_derived_asset.deadline_cron = "*/4 * * * *" ∧
    freshness_checks_unreliable_source.lower_bound_delta_minutes = 3 ∧
    freshness_checks_derived_asset.lower_bound_delta_minutes = 3 :=
  ⟨rfl, rfl, rfl, rfl, rfl, rfl⟩
